import Mathlib

/-!
Verification of `trading_app.py` (qianawms/GetMoney).

Prices and indicator values are modelled as rationals (`ℚ`); the
indicator mapping returned by the provider is modelled as a record of
optional fields, one per key the program reads; a Python `KeyError` in
the body of `get_tradingview_data` is modelled as `Except.error`, and the
surrounding try/except handler turns every error into `none`.
-/

/-- The per-instrument configuration record of `TARGET_PAIRS`. -/
structure PairConfig where
  symbol : String
  exchange : String
  screener : String
  pip_value : ℚ
deriving DecidableEq, Repr

/-- The `TARGET_PAIRS` table of `trading_app.py` (lines 17-23). -/
def TARGET_PAIRS : List (String × PairConfig) :=
  [ ("XAUUSD", ⟨"XAUUSD", "FX", "cfd", 1/100⟩),
    ("AUDJPY", ⟨"AUDJPY", "FX", "forex", 1/100⟩),
    ("GBPJPY", ⟨"GBPJPY", "FX", "forex", 1/100⟩),
    ("SPX500", ⟨"SPX", "SP", "cfd", 1/10⟩),
    ("USDJPY", ⟨"USDJPY", "FX", "forex", 1/100⟩) ]

/-- `TRADE_CONFIG.RISK_REWARD_RATIOS` (line 33). -/
def RISK_REWARD_RATIOS : List ℚ := [3/2, 2, 3]

/-- `TRADE_CONFIG.MAX_RISK_PERCENT` (line 34). -/
def MAX_RISK_PERCENT : ℚ := 1

/-- `TRADE_CONFIG.MIN_PIPS` (lines 35-41). -/
def MIN_PIPS : List (String × ℚ) :=
  [ ("XAUUSD", 50), ("AUDJPY", 30), ("GBPJPY", 40), ("SPX500", 10), ("USDJPY", 20) ]

/-- `TRADE_CONFIG.FIB_LEVELS` (line 42). -/
def FIB_LEVELS : List ℚ := [236/1000, 382/1000, 1/2, 618/1000, 786/1000, 886/1000]

/-- `TRADE_CONFIG.MIN_ATR_MULTIPLIER` (line 43). -/
def MIN_ATR_MULTIPLIER : ℚ := 3/2

/-- The keys of the provider's indicator mapping that
`get_tradingview_data` reads.  A key that may be absent from the Python
dict is an `Option` field; reading an absent key raises `KeyError`. -/
structure Indicators where
  close : Option ℚ
  high : Option ℚ
  low : Option ℚ
  «open» : Option ℚ
  RSI : Option ℚ
  ATR : Option ℚ
deriving DecidableEq, Repr

/-- The analysis object returned by `handler.get_analysis()`: an
indicator mapping plus a summary classification. -/
structure Analysis where
  indicators : Indicators
  summary : String
deriving DecidableEq, Repr

/-- What the provider call can come back with: an exception raised by
`get_analysis()` (network/provider error), a falsy or indicator-less
analysis object, or a usable analysis object. -/
inductive Provider
  | raised
  | noAnalysis
  | ok (a : Analysis)
deriving DecidableEq, Repr

/-- The snapshot record `{'indicators': ..., 'summary': ...}` returned on
success (line 104). -/
structure Snapshot where
  indicators : Indicators
  summary : String
deriving DecidableEq, Repr

/-- The ATR-fallback block of `get_tradingview_data` (lines 84-95).
If `ATR` is absent: with `high`, `low`, `close` all present it stores the
one-period true range `max(high - low, |high - close|, |low - close|)`;
otherwise it evaluates `(indicators['high'] - indicators['low']) * 0.5`,
which raises `KeyError` when `high` or `low` is absent. -/
def fillATR (ind : Indicators) : Except Unit Indicators :=
  match ind.ATR with
  | some _ => .ok ind
  | none =>
    match ind.high, ind.low, ind.close with
    | some h, some l, some c =>
        .ok { ind with ATR := some (max (h - l) (max |h - c| |l - c|)) }
    | _, _, _ =>
        match ind.high, ind.low with
        | some h, some l => .ok { ind with ATR := some ((h - l) * (1/2)) }
        | _, _ => .error ()

/-- The `required` field check of lines 97-102: `close`, `high`, `low`,
`open` and `RSI` must all be present. -/
def hasRequired (ind : Indicators) : Bool :=
  ind.close.isSome && ind.high.isSome && ind.low.isSome &&
    ind.«open».isSome && ind.RSI.isSome

/-- The body of the `try` block of `get_tradingview_data` (lines 68-104):
`Except.error` is a raised exception, `.ok none` is an early
`return None`, `.ok (some s)` is the success return. -/
def get_tradingview_data_try (p : Provider) : Except Unit (Option Snapshot) :=
  match p with
  | .raised => .error ()
  | .noAnalysis => .ok none
  | .ok a =>
    match fillATR a.indicators with
    | .error e => .error e
    | .ok ind =>
        if hasRequired ind then .ok (some ⟨ind, a.summary⟩) else .ok none

/-- `get_tradingview_data` (lines 65-107): the try body with the
`except Exception` handler, which turns every raised exception into
`return None`. -/
def get_tradingview_data (p : Provider) : Option Snapshot :=
  match get_tradingview_data_try p with
  | .ok r => r
  | .error _ => none

/-- The structure bias classifications of the Market Structure Analyzer. -/
inductive Bias
  | bullish
  | bearish
  | neutral
deriving DecidableEq, Repr

/-- The levels produced by the Trade Level Calculator. -/
structure TradeSetup where
  entry : ℚ
  stop_loss : ℚ
  take_profit : List ℚ
deriving DecidableEq, Repr

/-- Modelled from the spec: the function `calculate_trade_levels` is
referenced in `trading_app.py` (line 111) but its body is not in the
source.  Per spec 4.5: stop distance is
`max(minimum-pip floor * pip_value, ATR * MIN_ATR_MULTIPLIER)`; entry is
the current price (zones are advisory and an empty zone set leaves the
entry unchanged, so zones are omitted here); the stop is entry minus the
distance for bullish bias and entry plus it for bearish; each take-profit
is entry plus the bias-signed product of a risk-reward ratio with the
stop distance; the result is nothing when the bias is neutral, the ATR is
non-positive or unavailable, or the current price is missing. -/
def calculate_trade_levels (price atr : Option ℚ) (bias : Bias)
    (pip_value min_pips : ℚ) : Option TradeSetup :=
  match price, atr with
  | some p, some a =>
    if a ≤ 0 then none
    else
      let d := max (min_pips * pip_value) (a * MIN_ATR_MULTIPLIER)
      match bias with
      | .bullish => some ⟨p, p - d, RISK_REWARD_RATIOS.map (fun r => p + r * d)⟩
      | .bearish => some ⟨p, p + d, RISK_REWARD_RATIOS.map (fun r => p - r * d)⟩
      | .neutral => none
  | _, _ => none

lemma min_atr_multiplier_pos : (0 : ℚ) < MIN_ATR_MULTIPLIER := by
  norm_num [MIN_ATR_MULTIPLIER]

/-- Claim C1: for every valid TradeSetup produced by the Trade Level
Calculator, the stop distance equals
`max(min_pips * pip_value, ATR * MIN_ATR_MULTIPLIER)`, hence the
minimum-pip invariant and the volatility-floor invariant both hold. -/
theorem stop_distance_invariant (p a pip minp : ℚ) (bias : Bias) (s : TradeSetup)
    (hpip : 0 < pip)
    (h : calculate_trade_levels (some p) (some a) bias pip minp = some s) :
    |s.entry - s.stop_loss| = max (minp * pip) (a * MIN_ATR_MULTIPLIER) ∧
    minp ≤ |s.entry - s.stop_loss| / pip ∧
    a * MIN_ATR_MULTIPLIER ≤ |s.entry - s.stop_loss| := by
  simp only [calculate_trade_levels] at h
  split at h
  · exact absurd h (by simp)
  · rename_i ha
    push_neg at ha
    have hd : 0 < max (minp * pip) (a * MIN_ATR_MULTIPLIER) :=
      lt_of_lt_of_le (mul_pos ha min_atr_multiplier_pos) (le_max_right _ _)
    have hdist : |s.entry - s.stop_loss| = max (minp * pip) (a * MIN_ATR_MULTIPLIER) := by
      cases bias with
      | bullish =>
        simp only [] at h
        cases h
        simp [abs_of_pos hd]
      | bearish =>
        simp only [] at h
        cases h
        simp [abs_of_pos hd]
      | neutral => exact absurd h (by simp)
    refine ⟨hdist, ?_, ?_⟩
    · rw [hdist, le_div_iff₀ hpip]
      exact le_max_left _ _
    · rw [hdist]
      exact le_max_right _ _

/-- The setup computed for the XAUUSD scenario of the spec: price 2000,
ATR 3, bullish, pip value 0.01, minimum 50 pips. -/
def xauScenarioSetup : TradeSetup := ⟨2000, 3991/2, [8027/4, 2009, 4027/2]⟩

lemma xau_calc :
    calculate_trade_levels (some 2000) (some 3) Bias.bullish (1/100) 50 =
      some xauScenarioSetup := by
  norm_num [calculate_trade_levels, RISK_REWARD_RATIOS, xauScenarioSetup,
    MIN_ATR_MULTIPLIER, max_def]

theorem stop_distance_invariant_witness :
    (0 : ℚ) < 1/100 ∧
    calculate_trade_levels (some 2000) (some 3) Bias.bullish (1/100) 50 =
      some xauScenarioSetup ∧
    (|xauScenarioSetup.entry - xauScenarioSetup.stop_loss| =
        max (50 * (1/100)) (3 * MIN_ATR_MULTIPLIER) ∧
      50 ≤ |xauScenarioSetup.entry - xauScenarioSetup.stop_loss| / (1/100) ∧
      3 * MIN_ATR_MULTIPLIER ≤ |xauScenarioSetup.entry - xauScenarioSetup.stop_loss|) :=
  ⟨by norm_num, xau_calc,
    stop_distance_invariant 2000 3 (1/100) 50 Bias.bullish xauScenarioSetup
      (by norm_num) xau_calc⟩

/-- Claim C2: each take-profit level is the entry plus the bias-signed
product of a risk-reward ratio from (1.5, 2.0, 3.0) with the stop
distance, and the levels are strictly ordered:
`stop_loss < entry < tp0 < tp1 < tp2` for bullish bias and the reverse
for bearish bias. -/
theorem take_profit_levels (p a pip minp d : ℚ) (bias : Bias) (s : TradeSetup)
    (hd : d = max (minp * pip) (a * MIN_ATR_MULTIPLIER))
    (h : calculate_trade_levels (some p) (some a) bias pip minp = some s) :
    (bias = Bias.bullish →
      s.take_profit = RISK_REWARD_RATIOS.map (fun r => s.entry + r * d) ∧
      s.stop_loss < s.entry ∧ List.Chain' (· < ·) (s.entry :: s.take_profit)) ∧
    (bias = Bias.bearish →
      s.take_profit = RISK_REWARD_RATIOS.map (fun r => s.entry - r * d) ∧
      s.entry < s.stop_loss ∧ List.Chain' (· > ·) (s.entry :: s.take_profit)) := by
  simp only [calculate_trade_levels] at h
  split at h
  · exact absurd h (by simp)
  · rename_i ha
    push_neg at ha
    have hdpos : 0 < d := by
      rw [hd]
      exact lt_of_lt_of_le (mul_pos ha min_atr_multiplier_pos) (le_max_right _ _)
    cases bias with
    | bullish =>
      simp only [] at h
      cases h
      subst hd
      refine ⟨fun _ => ⟨rfl, ?_, ?_⟩, fun hc => absurd hc (by simp)⟩
      · simpa using hdpos
      · simp only [RISK_REWARD_RATIOS, List.map, List.chain'_cons, List.chain'_singleton,
          and_true]
        refine ⟨by linarith, by linarith, by linarith⟩
    | bearish =>
      simp only [] at h
      cases h
      subst hd
      refine ⟨fun hc => absurd hc (by simp), fun _ => ⟨rfl, ?_, ?_⟩⟩
      · simpa using hdpos
      · simp only [RISK_REWARD_RATIOS, List.map, List.chain'_cons, List.chain'_singleton,
          and_true, gt_iff_lt]
        refine ⟨by linarith, by linarith, by linarith⟩
    | neutral => exact absurd h (by simp)

theorem take_profit_levels_witness :
    ((9 : ℚ)/2 = max (50 * (1/100)) (3 * MIN_ATR_MULTIPLIER) ∧
      calculate_trade_levels (some 2000) (some 3) Bias.bullish (1/100) 50 =
        some xauScenarioSetup) ∧
    (Bias.bullish = Bias.bullish →
      xauScenarioSetup.take_profit =
        RISK_REWARD_RATIOS.map (fun r => xauScenarioSetup.entry + r * (9/2)) ∧
      xauScenarioSetup.stop_loss < xauScenarioSetup.entry ∧
      List.Chain' (· < ·) (xauScenarioSetup.entry :: xauScenarioSetup.take_profit)) ∧
    (Bias.bullish = Bias.bearish →
      xauScenarioSetup.take_profit =
        RISK_REWARD_RATIOS.map (fun r => xauScenarioSetup.entry - r * (9/2)) ∧
      xauScenarioSetup.entry < xauScenarioSetup.stop_loss ∧
      List.Chain' (· > ·) (xauScenarioSetup.entry :: xauScenarioSetup.take_profit)) :=
  ⟨⟨by norm_num [MIN_ATR_MULTIPLIER], xau_calc⟩,
    take_profit_levels 2000 3 (1/100) 50 (9/2) Bias.bullish xauScenarioSetup
      (by norm_num [MIN_ATR_MULTIPLIER]) xau_calc⟩

/-- Claim C5: for XAUUSD (pip value 0.01, minimum 50 pips), ATR 3,
current price 2000 and bullish bias, the calculator gives stop distance
4.5, stop loss 1995.50 and take profits 2006.75, 2009.00, 2013.50. -/
theorem xauusd_scenario :
    (TARGET_PAIRS.lookup "XAUUSD").map PairConfig.pip_value = some (1/100) ∧
    MIN_PIPS.lookup "XAUUSD" = some 50 ∧
    max ((50 : ℚ) * (1/100)) (3 * MIN_ATR_MULTIPLIER) = 4.5 ∧
    calculate_trade_levels (some 2000) (some 3) Bias.bullish (1/100) 50 =
      some ⟨2000, 1995.5, [2006.75, 2009, 2013.5]⟩ := by
  refine ⟨by rfl, by rfl, by norm_num [MIN_ATR_MULTIPLIER, max_def], ?_⟩
  rw [xau_calc]
  norm_num [xauScenarioSetup]

/-- Claim C6: the calculator returns nothing when the bias is neutral,
the price is missing, or the ATR is missing or non-positive. -/
theorem no_setup_on_invalid_inputs (price atr : Option ℚ) (bias : Bias) (pip minp : ℚ)
    (h : bias = Bias.neutral ∨ price = none ∨ atr = none ∨ ∃ a, atr = some a ∧ a ≤ 0) :
    calculate_trade_levels price atr bias pip minp = none := by
  rcases h with h | h | h | ⟨a, ha, hle⟩
  · subst h
    cases price <;> cases atr <;> simp [calculate_trade_levels]
  · subst h
    cases atr <;> simp [calculate_trade_levels]
  · subst h
    cases price <;> simp [calculate_trade_levels]
  · subst ha
    cases price with
    | none => simp [calculate_trade_levels]
    | some p => simp [calculate_trade_levels, hle]

theorem no_setup_on_invalid_inputs_witness :
    calculate_trade_levels (some 2000) (some 0) Bias.bullish (1/100) 50 = none :=
  no_setup_on_invalid_inputs (some 2000) (some 0) Bias.bullish (1/100) 50
    (Or.inr (Or.inr (Or.inr ⟨0, rfl, le_refl 0⟩)))

/-- Claim C3, as stated, is false: when `ATR` is absent and not all of
`high`, `low`, `close` are present, the code does not always fall back to
`0.5 * (high - low)` — with `high` or `low` absent the fallback line
raises `KeyError` instead of producing an ATR.  Counterexample: the empty
indicator mapping. -/
theorem atr_fallback_claim_cex :
    ¬ (∀ ind : Indicators, ind.ATR = none →
        ((∀ h l c, ind.high = some h → ind.low = some l → ind.close = some c →
            fillATR ind =
              Except.ok { ind with ATR := some (max (h - l) (max |h - c| |l - c|)) }) ∧
         (¬(ind.high.isSome = true ∧ ind.low.isSome = true ∧ ind.close.isSome = true) →
            ∃ h l, ind.high = some h ∧ ind.low = some l ∧
              fillATR ind = Except.ok { ind with ATR := some ((h - l) * (1/2)) }))) := by
  intro hclaim
  obtain ⟨-, h2⟩ := hclaim ⟨none, none, none, none, none, none⟩ rfl
  obtain ⟨h, l, hh, -, -⟩ := h2 (by simp)
  exact Option.noConfusion hh

/-- Claim C3 (amended): when the provider omits `ATR`, the fetcher
computes the one-period true range
`max(high - low, |high - close|, |low - close|)` from the snapshot's own
close when `high`, `low`, `close` are all present; when `close` is absent
but `high` and `low` are present it falls back to `0.5 * (high - low)`;
when `high` or `low` is absent the fallback raises and no ATR is
produced. -/
theorem atr_fallback_amended (ind : Indicators) (hatr : ind.ATR = none) :
    (∀ h l c, ind.high = some h → ind.low = some l → ind.close = some c →
       fillATR ind =
         Except.ok { ind with ATR := some (max (h - l) (max |h - c| |l - c|)) }) ∧
    (∀ h l, ind.close = none → ind.high = some h → ind.low = some l →
       fillATR ind = Except.ok { ind with ATR := some ((h - l) * (1/2)) }) ∧
    ((ind.high = none ∨ ind.low = none) → fillATR ind = Except.error ()) := by
  obtain ⟨ic, ih, il, io, ir, ia⟩ := ind
  simp only at hatr
  subst hatr
  refine ⟨?_, ?_, ?_⟩
  · rintro h l c rfl rfl rfl
    simp [fillATR]
  · rintro h l rfl rfl rfl
    simp [fillATR]
  · rintro (rfl | rfl)
    · cases il <;> cases ic <;> simp [fillATR]
    · cases ih <;> cases ic <;> simp [fillATR]

theorem atr_fallback_amended_witness :
    fillATR ⟨some 4, some 6, some 3, some 5, some 40, none⟩ =
      Except.ok ⟨some 4, some 6, some 3, some 5, some 40, some 3⟩ := by
  have h := (atr_fallback_amended ⟨some 4, some 6, some 3, some 5, some 40, none⟩ rfl).1
    6 3 4 rfl rfl rfl
  rw [h]
  norm_num

/-- Claim C4, as stated, is false: a missing RSI alone does make
`get_tradingview_data` fail, because `RSI` is in the `required` list of
line 98.  Counterexample: an analysis whose indicators have `close`,
`high`, `low`, `open` (and even `ATR`) but no `RSI`. -/
theorem fetch_rsi_required_cex :
    ¬ (∀ a : Analysis,
        a.indicators.close.isSome = true → a.indicators.high.isSome = true →
        a.indicators.low.isSome = true → a.indicators.«open».isSome = true →
        (get_tradingview_data (Provider.ok a)).isSome = true) := by
  intro hclaim
  have h := hclaim ⟨⟨some 1, some 2, some 0, some 1, none, some 2⟩, "BUY"⟩ rfl rfl rfl rfl
  simp [get_tradingview_data, get_tradingview_data_try, fillATR, hasRequired] at h

/-- Claim C4 (amended): the fetch succeeds exactly when the provider call
returns a usable analysis and all five fields `close`, `high`, `low`,
`open`, `RSI` are present; a provider error, a missing analysis, or any
absent field among the five — including RSI — makes it return nothing. -/
theorem fetch_success_iff (p : Provider) :
    (get_tradingview_data p).isSome = true ↔
      ∃ a, p = Provider.ok a ∧
        a.indicators.close.isSome = true ∧ a.indicators.high.isSome = true ∧
        a.indicators.low.isSome = true ∧ a.indicators.«open».isSome = true ∧
        a.indicators.RSI.isSome = true := by
  cases p with
  | raised => simp [get_tradingview_data, get_tradingview_data_try]
  | noAnalysis => simp [get_tradingview_data, get_tradingview_data_try]
  | ok a =>
    obtain ⟨⟨ic, ih, il, io, ir, ia⟩, summ⟩ := a
    cases ic <;> cases ih <;> cases il <;> cases io <;> cases ir <;> cases ia <;>
      simp [get_tradingview_data, get_tradingview_data_try, fillATR, hasRequired]

lemma fillATR_ok_atr (ind ind' : Indicators) (h : fillATR ind = Except.ok ind') :
    ind'.ATR.isSome = true := by
  obtain ⟨ic, ih, il, io, ir, ia⟩ := ind
  cases ia <;> cases ih <;> cases il <;> cases ic <;>
    simp only [fillATR] at h <;>
    first
      | (cases h; rfl)
      | exact Except.noConfusion h

/-- Claim C7: every snapshot successfully returned by
`get_tradingview_data` has its ATR field populated. -/
theorem fetch_atr_populated (p : Provider) (s : Snapshot)
    (h : get_tradingview_data p = some s) : s.indicators.ATR.isSome = true := by
  cases p with
  | raised => simp [get_tradingview_data, get_tradingview_data_try] at h
  | noAnalysis => simp [get_tradingview_data, get_tradingview_data_try] at h
  | ok a =>
    simp only [get_tradingview_data, get_tradingview_data_try] at h
    cases hfa : fillATR a.indicators with
    | error e =>
      simp [hfa] at h
    | ok ind =>
      by_cases hreq : hasRequired ind
      · simp only [hfa, hreq, if_true, Option.some.injEq] at h
        rw [← h]
        exact fillATR_ok_atr _ _ hfa
      · simp [hfa, hreq] at h

theorem fetch_atr_populated_witness :
    (⟨⟨some 1, some 2, some 0, some 1, some 50, some 7⟩, "BUY"⟩
        : Snapshot).indicators.ATR.isSome = true :=
  fetch_atr_populated
    (Provider.ok ⟨⟨some 1, some 2, some 0, some 1, some 50, some 7⟩, "BUY"⟩) _
    (by simp [get_tradingview_data, get_tradingview_data_try, fillATR, hasRequired])

/-- The ATR field of the indicator mapping after the ATR block, when the
block completed without raising. -/
def atrAfterFill (ind : Indicators) : Option (Option ℚ) :=
  match fillATR ind with
  | .ok ind' => some ind'.ATR
  | .error _ => none

/-- Claim C8: the ATR fallback computation is deterministic — two
indicator mappings without a provider ATR and with the same `high`,
`low`, `close` get the same computed ATR (the other fields are
irrelevant). -/
theorem atr_fallback_deterministic (i j : Indicators)
    (hi : i.ATR = none) (hj : j.ATR = none)
    (hh : i.high = j.high) (hl : i.low = j.low) (hc : i.close = j.close) :
    atrAfterFill i = atrAfterFill j := by
  obtain ⟨ic, ih, il, io, ir, ia⟩ := i
  obtain ⟨jc, jh, jl, jo, jr, ja⟩ := j
  simp only at hi hj hh hl hc
  subst hi hj hh hl hc
  cases ih <;> cases il <;> cases ic <;> simp [atrAfterFill, fillATR]

theorem atr_fallback_deterministic_witness :
    atrAfterFill ⟨some 1, some 3, some 0, none, none, none⟩ =
      atrAfterFill ⟨some 1, some 3, some 0, some 5, some 70, none⟩ :=
  atr_fallback_deterministic
    ⟨some 1, some 3, some 0, none, none, none⟩
    ⟨some 1, some 3, some 0, some 5, some 70, none⟩
    rfl rfl rfl rfl rfl

/-- Claim C9: `get_tradingview_data` is total at its interface — for
every provider outcome it returns a snapshot or nothing, and whenever the
try body raises (including the `KeyError` from the degraded ATR fallback
branch), the handler turns the exception into nothing. -/
theorem fetch_total (p : Provider) :
    ((∃ s, get_tradingview_data p = some s) ∨ get_tradingview_data p = none) ∧
    (∀ e, get_tradingview_data_try p = Except.error e →
      get_tradingview_data p = none) := by
  constructor
  · cases hr : get_tradingview_data p with
    | none => exact Or.inr rfl
    | some s => exact Or.inl ⟨s, rfl⟩
  · intro e he
    simp [get_tradingview_data, he]

theorem fetch_total_witness : get_tradingview_data Provider.raised = none :=
  (fetch_total Provider.raised).2 () rfl

/-- Claim C10: when the provider ATR is absent and `high`, `low`,
`close` are present with `low ≤ close ≤ high`, the fallback ATR is
exactly `high - low`. -/
theorem atr_fallback_range (ind : Indicators) (h l c : ℚ)
    (hatr : ind.ATR = none) (hh : ind.high = some h) (hl : ind.low = some l)
    (hc : ind.close = some c) (hlc : l ≤ c) (hch : c ≤ h) :
    fillATR ind = Except.ok { ind with ATR := some (h - l) } := by
  have h1 : |h - c| = h - c := abs_of_nonneg (by linarith)
  have h2 : |l - c| = c - l := by
    rw [abs_sub_comm]
    exact abs_of_nonneg (by linarith)
  have hmax : max (h - l) (max |h - c| |l - c|) = h - l := by
    rw [h1, h2]
    exact max_eq_left (max_le (by linarith) (by linarith))
  obtain ⟨ic, ih, il, io, ir, ia⟩ := ind
  simp only at hatr hh hl hc
  subst hatr hh hl hc
  simp [fillATR, hmax]

theorem atr_fallback_range_witness :
    ((2 : ℚ) ≤ 5 ∧ (5 : ℚ) ≤ 9) ∧
    fillATR ⟨some 5, some 9, some 2, some 1, some 50, none⟩ =
      Except.ok ⟨some 5, some 9, some 2, some 1, some 50, some (9 - 2)⟩ :=
  ⟨⟨by norm_num, by norm_num⟩,
    atr_fallback_range ⟨some 5, some 9, some 2, some 1, some 50, none⟩ 9 2 5
      rfl rfl rfl rfl (by norm_num) (by norm_num)⟩
